import Mathlib

/-!
Verification development for the cAdvisor per-container monitoring core:
the stats normalizer (`container/libcontainer/helpers.go`, `toContainerStats`)
and the per-container manager (`manager/container.go`: `NewContainerData`,
`nextHousekeeping`, `GetInfo`).

Machine integers (Go `uint64`) are modelled as `Nat` with explicit wrap-around
`% 2^64` at each arithmetic operation that the Go code performs on `uint64`
values, mirroring Go's fixed-width unsigned semantics. Go `time.Duration` and
`time.Time` are modelled as `Nat` nanosecond counts. Go maps from string keys
to `uint64` are modelled as association lists with first-match lookup.
-/

namespace CAdvisor

/-- The `uint64` modulus. -/
def U64 : Nat := 2 ^ 64

/-- Go `uint64` addition: wraps modulo `2^64` (used by `Total += ...`). -/
def add64 (a b : Nat) : Nat := (a + b) % U64

/-- Go `uint64` subtraction: wraps modulo `2^64` (used by `WorkingSet` math). -/
def sub64 (a b : Nat) : Nat := (a + (U64 - b % U64)) % U64

/-! ## Output data model (the `info` package)

The `info` package is a declaration-only collaborator of the files under
verification; its record shapes are reproduced here exactly as the fields are
read and written by `toContainerStats` and described in the data-model section
of the design document. -/

/-- Per-sample CPU usage in the normalized output: `Total`, `PerCpu`, `User`,
`System`, all cumulative `uint64` nanosecond counters. -/
structure CpuUsage where
  total : Nat
  perCpu : List Nat
  user : Nat
  system : Nat
  deriving Repr, DecidableEq, BEq

/-- Normalized CPU section. -/
structure CpuStats where
  usage : CpuUsage
  deriving Repr, DecidableEq, BEq

/-- Page-fault counters (`Pgfault`, `Pgmajfault`). -/
structure MemoryStatsMemoryData where
  pgfault : Nat
  pgmajfault : Nat
  deriving Repr, DecidableEq, BEq

/-- Normalized memory section: `Usage`, derived `WorkingSet`, and the
container-level and hierarchical page-fault data. -/
structure MemoryStats where
  usage : Nat
  workingSet : Nat
  containerData : MemoryStatsMemoryData
  hierarchicalData : MemoryStatsMemoryData
  deriving Repr, DecidableEq, BEq

/-- Network counters; `toContainerStats` passes them through by a
shape-preserving cast, so the output shape is the raw shape. -/
structure NetworkStats where
  rxBytes : Nat
  rxPackets : Nat
  rxErrors : Nat
  rxDropped : Nat
  txBytes : Nat
  txPackets : Nat
  txErrors : Nat
  txDropped : Nat
  deriving Repr, DecidableEq, BEq

/-- The Go zero value of `CpuUsage`. -/
def CpuUsage.zero : CpuUsage := ⟨0, [], 0, 0⟩

/-- The Go zero value of `CpuStats`. -/
def CpuStats.zero : CpuStats := ⟨CpuUsage.zero⟩

/-- The Go zero value of the page-fault data. -/
def MemoryStatsMemoryData.zero : MemoryStatsMemoryData := ⟨0, 0⟩

/-- The Go zero value of `MemoryStats`. -/
def MemoryStats.zero : MemoryStats :=
  ⟨0, 0, MemoryStatsMemoryData.zero, MemoryStatsMemoryData.zero⟩

/-- The Go zero value of `NetworkStats`. -/
def NetworkStats.zero : NetworkStats := ⟨0, 0, 0, 0, 0, 0, 0, 0⟩

/-- One normalized point-in-time sample (`info.ContainerStats`). -/
structure ContainerStats where
  timestamp : Nat
  cpu : CpuStats
  memory : MemoryStats
  network : NetworkStats
  deriving Repr, DecidableEq, BEq

/-- Modelled from the spec: `ContainerStats.StatsEq` lives in the `info`
package, which is not part of the files under verification; the design
document defines it as equality of the CPU, memory and network values,
ignoring the timestamp. -/
def statsEq (a b : ContainerStats) : Bool :=
  a.cpu == b.cpu && a.memory == b.memory && a.network == b.network

/-! ## Raw input data model (libcontainer cgroup counters)

Shapes of the raw snapshot exactly as the fields are read by
`toContainerStats`. -/

/-- Raw per-cgroup CPU usage as reported by the kernel accounting source:
a separately reported aggregate `TotalUsage`, the per-core list
`PercpuUsage`, and kernel/user mode cumulative counters. -/
structure RawCpuUsage where
  totalUsage : Nat
  percpuUsage : List Nat
  usageInKernelmode : Nat
  usageInUsermode : Nat
  deriving Repr, DecidableEq

/-- Raw CPU section. -/
structure RawCpuStats where
  cpuUsage : RawCpuUsage
  deriving Repr, DecidableEq

/-- Raw memory section: current `Usage` plus the string-keyed counter map of
`memory.stat`. The Go map is modelled as an association list with first-match
lookup. -/
structure RawMemoryStats where
  usage : Nat
  stats : List (String × Nat)
  deriving Repr, DecidableEq

/-- The raw cgroup snapshot (`cgroups.Stats`). -/
structure CgroupStats where
  cpuStats : RawCpuStats
  memoryStats : RawMemoryStats
  deriving Repr, DecidableEq

/-- The full raw snapshot handed to the normalizer
(`libcontainer.ContainerStats`): an optional (possibly `nil`) cgroup section
and an optional (possibly `nil`) network section. -/
structure LibcontainerStats where
  cgroupStats : Option CgroupStats
  networkStats : Option NetworkStats
  deriving Repr, DecidableEq

/-- First-match lookup in the modelled counter map (`v, ok := m[key]`). -/
def lookupStat (stats : List (String × Nat)) (key : String) : Option Nat :=
  (stats.find? (fun p => p.1 == key)).map (fun p => p.2)

/-! ## The stats normalizer (`toContainerStats`) -/

/-- The CPU loop of `toContainerStats`: `Total` starts at `0` and accumulates
each per-core entry with `uint64` addition; `PerCpu` receives the entries in
order. -/
def cpuTotalOfPerCpu (percpu : List Nat) : Nat :=
  percpu.foldl add64 0

/-- Embedding of `toContainerStats` from `container/libcontainer/helpers.go`.
`now` stands for the wall clock read by `time.Now()`; everything else is a
deterministic function of the raw snapshot. -/
def toContainerStats (l : LibcontainerStats) (now : Nat) : ContainerStats :=
  let cpu : CpuStats :=
    match l.cgroupStats with
    | none => CpuStats.zero
    | some s =>
      { usage :=
        { user := s.cpuStats.cpuUsage.usageInUsermode
          system := s.cpuStats.cpuUsage.usageInKernelmode
          perCpu := s.cpuStats.cpuUsage.percpuUsage
          total := cpuTotalOfPerCpu s.cpuStats.cpuUsage.percpuUsage } }
  let memory : MemoryStats :=
    match l.cgroupStats with
    | none => MemoryStats.zero
    | some s =>
      let pgfault :=
        match lookupStat s.memoryStats.stats "pgfault" with
        | some v => v
        | none => 0
      let pgmajfault :=
        match lookupStat s.memoryStats.stats "pgmajfault" with
        | some v => v
        | none => 0
      let workingSet :=
        match lookupStat s.memoryStats.stats "total_inactive_anon" with
        | none => 0
        | some v =>
          let w := sub64 s.memoryStats.usage v
          match lookupStat s.memoryStats.stats "total_active_file" with
          | none => w
          | some v2 => sub64 w v2
      { usage := s.memoryStats.usage
        workingSet := workingSet
        containerData := ⟨pgfault, pgmajfault⟩
        hierarchicalData := ⟨pgfault, pgmajfault⟩ }
  let network : NetworkStats :=
    match l.networkStats with
    | none => NetworkStats.zero
    | some n => n
  { timestamp := now, cpu := cpu, memory := memory, network := network }

/-! ## The per-container manager (`manager/container.go`)

Durations (`time.Duration`) and instants (`time.Time`) are `Nat` nanosecond
counts. The three package flags become an explicit configuration record. -/

/-- The configuration flags consumed by the manager:
`housekeeping_interval` (baseline, default 1s),
`max_housekeeping_interval` (default 60s),
`allow_dynamic_housekeeping` (default true). -/
structure Config where
  housekeepingInterval : Nat
  maxHousekeepingInterval : Nat
  allowDynamicHousekeeping : Bool
  deriving Repr, DecidableEq

/-- The default flag values: 1s baseline, 60s maximum, dynamic enabled. -/
def Config.default : Config :=
  { housekeepingInterval := 1000000000
    maxHousekeepingInterval := 60000000000
    allowDynamicHousekeeping := true }

/-- Immutable container identity (`info.ContainerReference`). -/
structure ContainerReference where
  name : String
  aliases : List String
  deriving Repr, DecidableEq

/-- Resource-capability flags (`info.ContainerSpec`), as described in the
data-model section of the design document. -/
structure ContainerSpec where
  hasCpu : Bool
  hasMemory : Bool
  hasNetwork : Bool
  hasFilesystem : Bool
  deriving Repr, DecidableEq

/-- The manager's mirror of the external info structure (`containerInfo`):
identity plus subcontainer list plus the (possibly still `nil`) spec
pointer. -/
structure ContainerInfo where
  name : String
  aliases : List String
  subcontainers : List ContainerReference
  spec : Option ContainerSpec
  deriving Repr, DecidableEq

/-- A container handler (`container.ContainerHandler`), modelled by the
results its methods would report to the manager: `ContainerReference()`,
`GetSpec()` and `ListContainers(LIST_SELF)`. Each is an `Except` because the
Go methods return `(value, error)` pairs. -/
structure ContainerHandler where
  containerReference : Except String ContainerReference
  getSpec : Except String ContainerSpec
  listContainers : Except String (List ContainerReference)
  deriving Repr

/-- A buffered Go channel, modelled by its capacity (the only property the
claims concern). -/
structure BoolChan where
  capacity : Nat
  deriving Repr, DecidableEq

/-- The manager state (`containerData`). The storage driver is kept abstract
in the type parameter `σ`; `runningLoops` counts the housekeeping goroutines
launched so far (`Start` performs `go c.housekeeping()`), so the
constructed-but-not-running state has `runningLoops = 0`. -/
structure ContainerData (σ : Type) where
  handler : ContainerHandler
  info : ContainerInfo
  storageDriver : σ
  housekeepingInterval : Nat
  stop : BoolChan
  runningLoops : Nat

/-- Embedding of `NewContainerData`. `driver = none` models a `nil` storage
driver. `resolveHandler` stands for the external
`container.NewContainerHandler` discovery call. -/
def NewContainerData (cfg : Config) (containerName : String)
    (driver : Option σ) (resolveHandler : String → Except String ContainerHandler) :
    Except String (ContainerData σ) :=
  match driver with
  | none => .error "nil storage driver"
  | some d =>
    match resolveHandler containerName with
    | .error e => .error e
    | .ok handler =>
      match handler.containerReference with
      | .error e => .error e
      | .ok ref =>
        .ok { handler := handler
              info := { name := ref.name, aliases := ref.aliases
                        subcontainers := [], spec := none }
              storageDriver := d
              housekeepingInterval := cfg.housekeepingInterval
              stop := { capacity := 1 }
              runningLoops := 0 }

/-- Embedding of `Start`: launches one housekeeping goroutine and returns no
error. -/
def ContainerData.start (c : ContainerData σ) : ContainerData σ × Option String :=
  ({ c with runningLoops := c.runningLoops + 1 }, none)

/-- The mutation `nextHousekeeping` performs on `self.housekeepingInterval`.
`recentStats` is the result of `storageDriver.RecentStats(name, 2)`: `none`
models an error return (which is only logged and leaves the interval
unchanged), `some l` the returned sample list, which only has an effect when
its length is exactly 2. -/
def updatedHousekeepingInterval (cfg : Config)
    (recentStats : Option (List ContainerStats)) (housekeepingInterval : Nat) : Nat :=
  if cfg.allowDynamicHousekeeping then
    match recentStats with
    | none => housekeepingInterval
    | some stats =>
      match stats with
      | [s0, s1] =>
        if statsEq s0 s1 && decide (housekeepingInterval < cfg.maxHousekeepingInterval) then
          if housekeepingInterval * 2 > cfg.maxHousekeepingInterval then
            cfg.maxHousekeepingInterval
          else
            housekeepingInterval * 2
        else if housekeepingInterval ≠ cfg.housekeepingInterval then
          cfg.housekeepingInterval
        else
          housekeepingInterval
      | _ => housekeepingInterval
  else
    housekeepingInterval

/-- Embedding of `nextHousekeeping`: update `self.housekeepingInterval` as
above, then return it together with the next wake time
`lastHousekeeping.Add(self.housekeepingInterval)`. -/
def nextHousekeeping (cfg : Config) (recentStats : Option (List ContainerStats))
    (housekeepingInterval : Nat) (lastHousekeeping : Nat) : Nat × Nat :=
  let i := updatedHousekeepingInterval cfg recentStats housekeepingInterval
  (i, lastHousekeeping + i)

/-- The interval component of `nextHousekeeping`, iterated over an arbitrary
sequence of sink results. -/
def runIntervals (cfg : Config) (seq : List (Option (List ContainerStats)))
    (i : Nat) : Nat :=
  seq.foldl (fun acc r => (nextHousekeeping cfg r acc 0).1) i

/-- Embedding of `updateSpec`: on handler success the stored spec pointer is
replaced; on failure the state is unchanged and the error returned. -/
def ContainerData.updateSpec (c : ContainerData σ) : ContainerData σ × Option String :=
  match c.handler.getSpec with
  | .error e => (c, some e)
  | .ok spec => ({ c with info := { c.info with spec := some spec } }, none)

/-- Embedding of `updateSubcontainers`: on handler success the stored
subcontainer list is replaced; on failure the state is unchanged and the
error returned. -/
def ContainerData.updateSubcontainers (c : ContainerData σ) :
    ContainerData σ × Option String :=
  match c.handler.listContainers with
  | .error e => (c, some e)
  | .ok subs => ({ c with info := { c.info with subcontainers := subs } }, none)

/-- Embedding of `GetInfo`: update the spec (returning early on error), then
update the subcontainers (returning early on error), then return a copy of
the stored info. The pair carries the manager state after the call alongside
the result. -/
def ContainerData.getInfo (c : ContainerData σ) :
    ContainerData σ × Except String ContainerInfo :=
  let r1 := c.updateSpec
  match r1.2 with
  | some e => (r1.1, .error e)
  | none =>
    let r2 := r1.1.updateSubcontainers
    match r2.2 with
    | some e => (r2.1, .error e)
    | none => (r2.1, .ok r2.1.info)

/-! ## Concrete fixtures used by witnesses and counterexamples -/

/-- An idle sample: all counters zero. -/
def sampleStats : ContainerStats :=
  { timestamp := 5, cpu := CpuStats.zero, memory := MemoryStats.zero
    network := NetworkStats.zero }

/-- A sample that differs from `sampleStats` in `Memory.Usage`. -/
def sampleStatsBusy : ContainerStats :=
  { timestamp := 9, cpu := CpuStats.zero
    memory := { MemoryStats.zero with usage := 7 }
    network := NetworkStats.zero }

/-- A handler whose methods all succeed. -/
def okHandler : ContainerHandler :=
  { containerReference := .ok { name := "/", aliases := [] }
    getSpec := .ok { hasCpu := true, hasMemory := true, hasNetwork := false, hasFilesystem := false }
    listContainers := .ok [] }

/-- A discovery function that resolves every name to `okHandler`. -/
def okResolve : String → Except String ContainerHandler := fun _ => .ok okHandler

/-- The manager `NewContainerData Config.default "/" (some ()) okResolve`
constructs. -/
def testData : ContainerData Unit :=
  { handler := okHandler
    info := { name := "/", aliases := [], subcontainers := [], spec := none }
    storageDriver := ()
    housekeepingInterval := 1000000000
    stop := { capacity := 1 }
    runningLoops := 0 }

/-- The spec value reported by `okHandler.getSpec`. -/
def specValue : ContainerSpec :=
  { hasCpu := true, hasMemory := true, hasNetwork := false, hasFilesystem := false }

/-- A manager whose handler reports a spec successfully but fails to list
subcontainers. -/
def testDataListErr : ContainerData Unit :=
  { testData with
    handler := { okHandler with listContainers := .error "boom" } }

/-- A sequence of sink results: an equal pair, an unequal pair, and a fetch
error. -/
def sinkSeq : List (Option (List ContainerStats)) :=
  [some [sampleStats, sampleStats], some [sampleStatsBusy, sampleStats], none]

/-- A raw snapshot whose two per-core entries are valid `uint64` values that
sum to `2^64`, so the `uint64` accumulation of `Total` wraps to `0`. -/
def cpuOverflowSnapshot : LibcontainerStats :=
  { cgroupStats := some
      { cpuStats := { cpuUsage :=
          { totalUsage := 0, percpuUsage := [2 ^ 63, 2 ^ 63]
            usageInKernelmode := 0, usageInUsermode := 0 } }
        memoryStats := { usage := 0, stats := [] } }
    networkStats := none }

/-- The raw memory snapshot of Scenario B: usage 1000, both derived-counter
keys present. -/
def memSnapshot : CgroupStats :=
  { cpuStats := { cpuUsage :=
      { totalUsage := 0, percpuUsage := [], usageInKernelmode := 0, usageInUsermode := 0 } }
    memoryStats := { usage := 1000
                     stats := [("total_inactive_anon", 200), ("total_active_file", 50)] } }

/-- A raw memory snapshot with `total_active_file` present but
`total_inactive_anon` absent. -/
def memSnapshotNoAnon : CgroupStats :=
  { memSnapshot with
    memoryStats := { usage := 1000, stats := [("total_active_file", 50)] } }

/-- A raw memory snapshot where `total_inactive_anon` (200) exceeds usage
(100). -/
def memSnapshotUnderflow : CgroupStats :=
  { memSnapshot with
    memoryStats := { usage := 100, stats := [("total_inactive_anon", 200)] } }

/-! ## Helper lemmas -/

theorem u64_eq : U64 = 18446744073709551616 := by norm_num [U64]

theorem foldl_add64_eq (l : List Nat) : ∀ a : Nat, l.foldl add64 (a % U64) = (a + l.sum) % U64 := by
  induction l with
  | nil => intro a; simp
  | cons x xs ih =>
    intro a
    have hstep : add64 (a % U64) x = (a + x) % U64 := by
      unfold add64; rw [Nat.mod_add_mod]
    simp only [List.foldl_cons, List.sum_cons, hstep]
    rw [ih (a + x), Nat.add_assoc]

theorem cpuTotalOfPerCpu_eq (l : List Nat) : cpuTotalOfPerCpu l = l.sum % U64 := by
  have h := foldl_add64_eq l 0
  simpa [cpuTotalOfPerCpu] using h

theorem sub64_of_le (a b : Nat) (hba : b ≤ a) (ha : a < U64) : sub64 a b = a - b := by
  have hb : b < U64 := lt_of_le_of_lt hba ha
  unfold sub64
  rw [Nat.mod_eq_of_lt hb, u64_eq] at *
  omega

theorem sub64_of_lt (a b : Nat) (hab : a < b) (hb : b < U64) : sub64 a b = a + (U64 - b) := by
  unfold sub64
  rw [Nat.mod_eq_of_lt hb, u64_eq] at *
  omega

theorem updatedHousekeepingInterval_bounds (cfg : Config)
    (r : Option (List ContainerStats)) (i : Nat)
    (hbm : cfg.housekeepingInterval ≤ cfg.maxHousekeepingInterval)
    (h1 : cfg.housekeepingInterval ≤ i) (h2 : i ≤ cfg.maxHousekeepingInterval) :
    cfg.housekeepingInterval ≤ updatedHousekeepingInterval cfg r i ∧
      updatedHousekeepingInterval cfg r i ≤ cfg.maxHousekeepingInterval := by
  unfold updatedHousekeepingInterval
  split
  · rcases r with _ | stats
    · exact ⟨h1, h2⟩
    · rcases stats with _ | ⟨s0, _ | ⟨s1, _ | ⟨s2, rest⟩⟩⟩
      · exact ⟨h1, h2⟩
      · exact ⟨h1, h2⟩
      · dsimp only
        split
        · split <;> constructor <;> omega
        · split <;> constructor <;> omega
      · exact ⟨h1, h2⟩
  · exact ⟨h1, h2⟩

theorem runIntervals_bounds (cfg : Config)
    (hbm : cfg.housekeepingInterval ≤ cfg.maxHousekeepingInterval) :
    ∀ (seq : List (Option (List ContainerStats))) (i : Nat),
      cfg.housekeepingInterval ≤ i → i ≤ cfg.maxHousekeepingInterval →
      cfg.housekeepingInterval ≤ runIntervals cfg seq i ∧
        runIntervals cfg seq i ≤ cfg.maxHousekeepingInterval := by
  intro seq
  induction seq with
  | nil => intro i h1 h2; exact ⟨h1, h2⟩
  | cons r rest ih =>
    intro i h1 h2
    have hb := updatedHousekeepingInterval_bounds cfg r i hbm h1 h2
    have hrec := ih (updatedHousekeepingInterval cfg r i) hb.1 hb.2
    simpa [runIntervals, nextHousekeeping] using hrec

theorem newContainerData_ok_fields {σ : Type} (cfg : Config) (nm : String) (d : σ)
    (resolve : String → Except String ContainerHandler) (c : ContainerData σ)
    (hok : NewContainerData cfg nm (some d) resolve = .ok c) :
    c.housekeepingInterval = cfg.housekeepingInterval ∧
      c.stop.capacity = 1 ∧ c.runningLoops = 0 := by
  unfold NewContainerData at hok
  dsimp only at hok
  rcases hres : resolve nm with e | handler <;> rw [hres] at hok <;> dsimp only at hok
  · exact absurd hok (by simp)
  · rcases href : handler.containerReference with e | ref <;> rw [href] at hok <;>
      dsimp only at hok
    · exact absurd hok (by simp)
    · rw [Except.ok.injEq] at hok
      subst hok
      exact ⟨rfl, rfl, rfl⟩

/-! ## Claim theorems -/

/-- C1: the claim (Scenario D) says that with two equal recent samples and the
interval already at the configured maximum (60s), the interval stays at the
maximum and the wake time is `lastTick + max`. The code does the opposite: the
doubling guard requires `interval < max`, so at the maximum the `else if
interval != baseline` branch fires and resets the interval to the baseline.
This theorem evaluates `nextHousekeeping` at the failing input: default
configuration, two equal samples, interval 60s, `lastTick = 0`; the result is
the baseline 1s and wake time 1s, not 60s. -/
theorem nextHousekeeping_at_max_equal_resets_to_baseline :
    nextHousekeeping Config.default (some [sampleStats, sampleStats]) 60000000000 0
      = (1000000000, 1000000000) := by
  rfl

/-- C2: with dynamic adaptation enabled, two equal recent samples and the
current interval strictly below the maximum, the new interval is
`min (2 * old, max)` and the wake time is `lastTick` plus that interval. -/
theorem nextHousekeeping_doubles_below_max (cfg : Config) (s0 s1 : ContainerStats)
    (i last : Nat) (hdyn : cfg.allowDynamicHousekeeping = true)
    (heq : statsEq s0 s1 = true) (hlt : i < cfg.maxHousekeepingInterval) :
    nextHousekeeping cfg (some [s0, s1]) i last
      = (min (i * 2) cfg.maxHousekeepingInterval,
         last + min (i * 2) cfg.maxHousekeepingInterval) := by
  have hu : updatedHousekeepingInterval cfg (some [s0, s1]) i
      = min (i * 2) cfg.maxHousekeepingInterval := by
    simp only [updatedHousekeepingInterval, hdyn, if_true, heq, Bool.true_and]
    rw [decide_eq_true hlt]
    simp only [if_true]
    split <;> omega
  unfold nextHousekeeping
  rw [hu]

/-- C2 witness: baseline 1s, max 60s, interval at baseline, equal samples:
the new interval is 2s. -/
theorem nextHousekeeping_doubles_below_max_witness :
    nextHousekeeping Config.default (some [sampleStats, sampleStats]) 1000000000 0
      = (2000000000, 2000000000) := by
  have h := nextHousekeeping_doubles_below_max Config.default sampleStats sampleStats
    1000000000 0 rfl (by decide) (by decide)
  rw [h]
  decide

/-- C3: with dynamic adaptation enabled, two recent samples that are not equal
under the stats comparison, and the interval at `baseline * 2 ^ k` for some
`k > 0` (baseline positive), the interval resets to exactly the baseline,
regardless of `k`. -/
theorem nextHousekeeping_resets_to_baseline_on_change (cfg : Config)
    (s0 s1 : ContainerStats) (k last : Nat)
    (hdyn : cfg.allowDynamicHousekeeping = true)
    (hneq : statsEq s0 s1 = false) (hk : 0 < k)
    (hbase : 0 < cfg.housekeepingInterval) :
    nextHousekeeping cfg (some [s0, s1]) (cfg.housekeepingInterval * 2 ^ k) last
      = (cfg.housekeepingInterval, last + cfg.housekeepingInterval) := by
  have h2 : 2 ≤ 2 ^ k := by
    calc 2 = 2 ^ 1 := by norm_num
    _ ≤ 2 ^ k := Nat.pow_le_pow_right (by norm_num) hk
  have hlt : cfg.housekeepingInterval < cfg.housekeepingInterval * 2 ^ k := by
    calc cfg.housekeepingInterval = cfg.housekeepingInterval * 1 := by ring
    _ < cfg.housekeepingInterval * 2 := by omega
    _ ≤ cfg.housekeepingInterval * 2 ^ k := Nat.mul_le_mul_left _ h2
  have hne : cfg.housekeepingInterval * 2 ^ k ≠ cfg.housekeepingInterval := by omega
  have hu : updatedHousekeepingInterval cfg (some [s0, s1])
      (cfg.housekeepingInterval * 2 ^ k) = cfg.housekeepingInterval := by
    simp [updatedHousekeepingInterval, hdyn, hneq, hne]
  unfold nextHousekeeping
  rw [hu]

/-- C3 witness: interval 16s = 1s * 2^4, unequal samples, default
configuration: the interval resets to 1s. -/
theorem nextHousekeeping_resets_to_baseline_on_change_witness :
    nextHousekeeping Config.default (some [sampleStatsBusy, sampleStats]) 16000000000 0
      = (1000000000, 1000000000) := by
  have h := nextHousekeeping_resets_to_baseline_on_change Config.default sampleStatsBusy
    sampleStats 4 0 rfl (by decide) (by decide) (by decide)
  have e : (16000000000 : Nat) = Config.default.housekeepingInterval * 2 ^ 4 := by
    norm_num [Config.default]
  rw [e]
  simpa [Config.default] using h

/-- C4: assuming baseline at most maximum, a manager constructed by
`NewContainerData` starts at the baseline interval, and iterating
`nextHousekeeping` over any sequence of sink results keeps the interval within
`[baseline, maximum]`. -/
theorem housekeepingInterval_always_bounded {σ : Type} (cfg : Config) (nm : String)
    (d : σ) (resolve : String → Except String ContainerHandler) (c : ContainerData σ)
    (hbm : cfg.housekeepingInterval ≤ cfg.maxHousekeepingInterval)
    (hok : NewContainerData cfg nm (some d) resolve = .ok c)
    (seq : List (Option (List ContainerStats))) :
    cfg.housekeepingInterval ≤ runIntervals cfg seq c.housekeepingInterval ∧
      runIntervals cfg seq c.housekeepingInterval ≤ cfg.maxHousekeepingInterval := by
  have hstart := (newContainerData_ok_fields cfg nm d resolve c hok).1
  rw [hstart]
  exact runIntervals_bounds cfg hbm seq cfg.housekeepingInterval (le_refl _) hbm

/-- C4 witness: the default configuration, the concretely constructed manager
and a sequence holding an equal pair, an unequal pair and a fetch error. -/
theorem housekeepingInterval_always_bounded_witness :
    Config.default.housekeepingInterval ≤
        runIntervals Config.default sinkSeq testData.housekeepingInterval ∧
      runIntervals Config.default sinkSeq testData.housekeepingInterval ≤
        Config.default.maxHousekeepingInterval :=
  housekeepingInterval_always_bounded Config.default "/" () okResolve testData
    (by decide) rfl sinkSeq

/-- C5 counterexample: per-CPU entries `[2^63, 2^63]` are valid `uint64`
values, but the `uint64` accumulation of `Total` wraps to `0`, which is not
the arithmetic sum `2^64` of the per-CPU entries, refuting the claim that
`Total` always equals the arithmetic sum. -/
theorem cpu_total_wraps_counterexample :
    (toContainerStats cpuOverflowSnapshot 0).cpu.usage.total = 0 ∧
      (toContainerStats cpuOverflowSnapshot 0).cpu.usage.perCpu = [2 ^ 63, 2 ^ 63] ∧
      (toContainerStats cpuOverflowSnapshot 0).cpu.usage.total ≠
        (toContainerStats cpuOverflowSnapshot 0).cpu.usage.perCpu.sum := by
  refine ⟨by decide, by decide, by decide⟩

/-- C5 (amended): for every raw snapshot with a present cgroup section,
`PerCpu` is exactly the raw per-CPU list (same length, values and order), and
`Total` is the arithmetic sum of those entries reduced modulo `2^64` (the
value produced by accumulating them with unsigned 64-bit addition); the raw
`TotalUsage` field is never consulted. In particular `Total` is the exact sum
whenever that sum fits in 64 bits, including when some entries are zero. -/
theorem cpu_normalization_perCpu_and_total (cg : CgroupStats)
    (nw : Option NetworkStats) (now : Nat) :
    (toContainerStats { cgroupStats := some cg, networkStats := nw } now).cpu.usage.perCpu
        = cg.cpuStats.cpuUsage.percpuUsage ∧
      (toContainerStats { cgroupStats := some cg, networkStats := nw } now).cpu.usage.total
        = cg.cpuStats.cpuUsage.percpuUsage.sum % U64 := by
  constructor
  · rfl
  · exact cpuTotalOfPerCpu_eq _

/-- C6: with the memory section present and no `uint64` underflow,
`WorkingSet` is `Usage - total_inactive_anon`, further minus
`total_active_file` when that key is also present; when `total_inactive_anon`
is absent, `WorkingSet` is exactly zero, even when `total_active_file` or
other counters are present. -/
theorem workingSet_computation (cg : CgroupStats) (nw : Option NetworkStats) (now : Nat) :
    (lookupStat cg.memoryStats.stats "total_inactive_anon" = none →
        (toContainerStats { cgroupStats := some cg, networkStats := nw } now).memory.workingSet
          = 0) ∧
      (∀ v : Nat, lookupStat cg.memoryStats.stats "total_inactive_anon" = some v →
        lookupStat cg.memoryStats.stats "total_active_file" = none →
        v ≤ cg.memoryStats.usage → cg.memoryStats.usage < U64 →
        (toContainerStats { cgroupStats := some cg, networkStats := nw } now).memory.workingSet
          = cg.memoryStats.usage - v) ∧
      (∀ v v2 : Nat, lookupStat cg.memoryStats.stats "total_inactive_anon" = some v →
        lookupStat cg.memoryStats.stats "total_active_file" = some v2 →
        v + v2 ≤ cg.memoryStats.usage → cg.memoryStats.usage < U64 →
        (toContainerStats { cgroupStats := some cg, networkStats := nw } now).memory.workingSet
          = cg.memoryStats.usage - v - v2) := by
  refine ⟨?_, ?_, ?_⟩
  · intro h
    simp [toContainerStats, h]
  · intro v hv hno hle hlt
    simp only [toContainerStats, hv, hno]
    exact sub64_of_le _ _ hle hlt
  · intro v v2 hv hv2 hle hlt
    simp only [toContainerStats, hv, hv2]
    rw [sub64_of_le _ _ (le_trans (Nat.le_add_right v v2) hle) hlt]
    exact sub64_of_le _ _ (by omega) (by omega)

/-- C6 witness: Scenario B gives `WorkingSet = 1000 - 200 - 50 = 750`, and a
snapshot with only `total_active_file` gives `WorkingSet = 0`. -/
theorem workingSet_computation_witness :
    (toContainerStats { cgroupStats := some memSnapshot, networkStats := none } 0).memory.workingSet
        = 750 ∧
      (toContainerStats { cgroupStats := some memSnapshotNoAnon, networkStats := none } 0).memory.workingSet
        = 0 := by
  constructor
  · have h := (workingSet_computation memSnapshot none 0).2.2 200 50 rfl rfl
      (by decide) (by decide)
    simpa using h
  · exact (workingSet_computation memSnapshotNoAnon none 0).1 rfl

/-- C7: normalization is a total function; the timestamp is always the
normalization time, and on a snapshot with both sections absent the result is
the record with the timestamp set and every CPU, memory and network
substructure at its zero value. -/
theorem toContainerStats_total_function :
    (∀ (l : LibcontainerStats) (now : Nat), (toContainerStats l now).timestamp = now) ∧
      (∀ now : Nat, toContainerStats { cgroupStats := none, networkStats := none } now
        = { timestamp := now, cpu := CpuStats.zero, memory := MemoryStats.zero,
            network := NetworkStats.zero }) :=
  ⟨fun _ _ => rfl, fun _ => rfl⟩

/-- C8: `NewContainerData` fails on a nil driver for every container name, and
whenever it succeeds the manager's interval equals the configured baseline,
its stop channel has capacity one, and no housekeeping loop has been
launched. -/
theorem newContainerData_validation_and_init :
    (∀ (σ : Type) (cfg : Config) (nm : String)
        (resolve : String → Except String ContainerHandler),
        NewContainerData cfg nm (none : Option σ) resolve
          = .error "nil storage driver") ∧
      (∀ (σ : Type) (cfg : Config) (nm : String) (d : σ)
        (resolve : String → Except String ContainerHandler) (c : ContainerData σ),
        NewContainerData cfg nm (some d) resolve = .ok c →
        c.housekeepingInterval = cfg.housekeepingInterval ∧
          c.stop.capacity = 1 ∧ c.runningLoops = 0) :=
  ⟨fun _ _ _ _ => rfl,
    fun _ cfg nm d resolve c hok => newContainerData_ok_fields cfg nm d resolve c hok⟩

/-- C8 witness: the nil-driver error at a concrete name, and the constructed
manager `testData` with baseline interval, capacity-one stop channel and no
running loop. -/
theorem newContainerData_validation_and_init_witness :
    NewContainerData Config.default "/" (none : Option Unit) okResolve
        = .error "nil storage driver" ∧
      (testData.housekeepingInterval = Config.default.housekeepingInterval ∧
        testData.stop.capacity = 1 ∧ testData.runningLoops = 0) :=
  ⟨newContainerData_validation_and_init.1 Unit Config.default "/" okResolve,
    newContainerData_validation_and_init.2 Unit Config.default "/" () okResolve
      testData rfl⟩

/-- C9: the `WorkingSet` subtraction is unguarded `uint64` arithmetic: when
`total_inactive_anon` exceeds `Memory.Usage`, the result wraps modulo `2^64`
to `Usage + (2^64 - total_inactive_anon)`, which is strictly larger than
`Usage` rather than clamped to zero or reported as an error. -/
theorem workingSet_underflow_wraps (cg : CgroupStats) (nw : Option NetworkStats)
    (now v : Nat)
    (hv : lookupStat cg.memoryStats.stats "total_inactive_anon" = some v)
    (hno : lookupStat cg.memoryStats.stats "total_active_file" = none)
    (hlt : cg.memoryStats.usage < v) (hv64 : v < U64) :
    (toContainerStats { cgroupStats := some cg, networkStats := nw } now).memory.workingSet
        = cg.memoryStats.usage + (U64 - v) ∧
      cg.memoryStats.usage <
        (toContainerStats { cgroupStats := some cg, networkStats := nw } now).memory.workingSet := by
  have h : (toContainerStats { cgroupStats := some cg, networkStats := nw } now).memory.workingSet
      = sub64 cg.memoryStats.usage v := by
    simp only [toContainerStats, hv, hno]
  rw [h, sub64_of_lt _ _ hlt hv64]
  have h64 := u64_eq
  exact ⟨rfl, by omega⟩

/-- C9 witness: usage 100 and `total_inactive_anon` 200 yield
`WorkingSet = 2^64 - 100`, a huge value above the usage. -/
theorem workingSet_underflow_wraps_witness :
    (toContainerStats { cgroupStats := some memSnapshotUnderflow, networkStats := none } 0).memory.workingSet
        = 18446744073709551516 ∧
      100 < (toContainerStats { cgroupStats := some memSnapshotUnderflow, networkStats := none } 0).memory.workingSet := by
  have h := workingSet_underflow_wraps memSnapshotUnderflow none 0 200 rfl rfl
    (by decide) (by decide)
  constructor
  · rw [h.1]; decide
  · exact h.2

/-- C10: when the spec fetch succeeds and the subcontainer fetch fails,
`GetInfo` returns the error to the caller, yet the stored spec has already
been replaced by the freshly fetched value; if the stored spec differed
beforehand, the manager state is observably changed on the error path. -/
theorem getInfo_updates_spec_despite_error {σ : Type} (c : ContainerData σ)
    (sp : ContainerSpec) (e : String)
    (hs : c.handler.getSpec = .ok sp) (hl : c.handler.listContainers = .error e) :
    (c.getInfo).2 = .error e ∧
      (c.getInfo).1.info.spec = some sp ∧
      (c.info.spec ≠ some sp → (c.getInfo).1.info ≠ c.info) := by
  have h : c.getInfo
      = ({ c with info := { c.info with spec := some sp } }, .error e) := by
    unfold ContainerData.getInfo ContainerData.updateSpec ContainerData.updateSubcontainers
    rw [hs]
    dsimp only
    rw [hl]
  rw [h]
  refine ⟨rfl, rfl, ?_⟩
  intro hne heq
  exact hne (congrArg ContainerInfo.spec heq).symm

/-- C10 witness: a manager whose handler reports the spec but fails listing
subcontainers with "boom": the call returns the error while the stored info
has gained the new spec. -/
theorem getInfo_updates_spec_despite_error_witness :
    (testDataListErr.getInfo).2 = Except.error "boom" ∧
      (testDataListErr.getInfo).1.info.spec = some specValue ∧
      (testDataListErr.getInfo).1.info ≠ testDataListErr.info := by
  have h := getInfo_updates_spec_despite_error testDataListErr specValue "boom" rfl rfl
  exact ⟨h.1, h.2.1, h.2.2 (by decide)⟩

end CAdvisor
